import Mathlib

/-!
Verification of the capacity-tariff peak-shaving engine
(`lib/peak-tracker.js` and `lib/forecasting.js`).

The JavaScript code is shallowly embedded: JS numbers are modelled as `ℚ`
(all arithmetic appearing here is exact on the rationals), date strings
`YYYY-MM-DD` as a `YMD` triple compared for equality, interval-identifier
strings `YYYY-MM-DDTHH:MM` as a `IntervalId` record, result/reason strings
as inductive enumerations, `null`/absent values as `Option`, and the
mutated `state` object as an explicit `EState` value threaded through each
function.  Timestamps (`Date` values) are modelled by a `DT` record carrying
the calendar observations the code reads (`getFullYear`, `getMonth`,
`getDate`, `getHours`, `getMinutes`, `getDay`, `getTime`); the system
timezone is taken to be UTC, so `toISOString` yields the same calendar day.
-/

namespace Effekttariff

/-- Calendar date, modelling a `YYYY-MM-DD` string (compared for equality). -/
structure YMD where
  year : Nat
  month : Nat
  day : Nat
deriving DecidableEq

/-- Interval identifier, modelling a `YYYY-MM-DDTHH:MM` string
(`getIntervalId` in the source). -/
structure IntervalId where
  date : YMD
  hour : Nat
  minute : Nat
deriving DecidableEq

/-- One entry of the ranked peak list: `{ date, hour, value, effective }`. -/
structure Peak where
  date : YMD
  hour : Nat
  value : ℚ
  effective : ℚ
deriving DecidableEq

/-- Single-peak-mode record: `{ date, time, intervalId, value, effective }`;
the `HH:MM` time string is modelled as an (hour, minute) pair. -/
structure SinglePeak where
  date : YMD
  time : Nat × Nat
  intervalId : IntervalId
  value : ℚ
  effective : ℚ
deriving DecidableEq

/-- Rolling-history entry `{ month: 'YYYY-MM', peakW }`; the month string is
modelled as a (year, month) pair. -/
structure MonthPeak where
  month : Nat × Nat
  peakW : ℚ
deriving DecidableEq

/-- One dynamic-headroom rule `{ socLessThan, headroomKw }`. -/
structure HeadroomRule where
  socLessThan : ℚ
  headroomKw : ℚ
deriving DecidableEq

/-- The `dynamicHeadroom` config sub-object. -/
structure DynamicHeadroomConfig where
  enabled : Bool
  rules : List HeadroomRule
deriving DecidableEq

/-- The `learningMode` config string: `'learning'` or `'carryover'`. -/
inductive LearningMode where
  | learning
  | carryover
deriving DecidableEq

/-- The `batteryBalancing` config sub-object. -/
structure BalancingConfig where
  enabled : Bool
  socThreshold : ℚ
  targetSoc : ℚ
  holdHours : ℚ
  startTime : Nat
  endTime : Nat
deriving DecidableEq

/-- The `downtimeDetection.action` config string: `'log'` or `'ignore'`. -/
inductive DowntimeAction where
  | log
  | ignore
deriving DecidableEq

/-- The `downtimeDetection` config sub-object. -/
structure DowntimeConfig where
  enabled : Bool
  triggerHours : Nat
  action : DowntimeAction
deriving DecidableEq

/-- Engine configuration (the fields of `DEFAULT_CONFIG` that the embedded
functions read; context keys and the region/forecast selector strings are
host-adapter concerns and are not consulted by the embedded core). -/
structure Config where
  measurementIntervalMinutes : Nat
  singlePeakMode : Bool
  annualBillingEnabled : Bool
  rollingMonths : Nat
  peakCount : Nat
  onePeakPerDay : Bool
  peakHoursStart : Nat
  peakHoursEnd : Nat
  weekdaysOnly : Bool
  nightDiscount : Bool
  peakSeasonOnly : Bool
  peakSeasonStart : Nat
  peakSeasonEnd : Nat
  minimumLimitKw : ℚ
  headroomKw : ℚ
  learningMode : LearningMode
  previousMonthCarryover : ℚ
  dynamicHeadroom : DynamicHeadroomConfig
  phases : ℚ
  gridVoltage : ℚ
  maxBreakerCurrent : ℚ
  batteryEnabled : Bool
  batteryCapacityWh : ℚ
  maxChargeRateW : ℚ
  socBuffer : ℚ
  batteryBalancing : BalancingConfig
  downtimeDetection : DowntimeConfig
deriving DecidableEq

/-- `DEFAULT_CONFIG` from the source (embedded fields only). -/
def defaultConfig : Config where
  measurementIntervalMinutes := 60
  singlePeakMode := false
  annualBillingEnabled := false
  rollingMonths := 12
  peakCount := 3
  onePeakPerDay := true
  peakHoursStart := 7
  peakHoursEnd := 21
  weekdaysOnly := false
  nightDiscount := false
  peakSeasonOnly := true
  peakSeasonStart := 11
  peakSeasonEnd := 3
  minimumLimitKw := 4
  headroomKw := 3 / 10
  learningMode := .learning
  previousMonthCarryover := 80
  dynamicHeadroom := ⟨false, [⟨20, 1⟩, ⟨80, 1 / 2⟩, ⟨101, 1 / 5⟩]⟩
  phases := 3
  gridVoltage := 230
  maxBreakerCurrent := 25
  batteryEnabled := false
  batteryCapacityWh := 10000
  maxChargeRateW := 3000
  socBuffer := 20
  batteryBalancing := ⟨false, 95, 100, 2, 0, 6⟩
  downtimeDetection := ⟨true, 2, .log⟩

/-- Battery telemetry `{ soc, minSoc }`.  A missing object or a non-numeric
`soc` is modelled as `none` at the use sites; a missing `minSoc` as `none`
in this record. -/
structure BatteryState where
  soc : ℚ
  minSoc : Option ℚ
deriving DecidableEq

/-- Outcome of a peak submission: `'added' | 'updated' | 'kept' | 'skipped'`. -/
inductive PeakResult where
  | added
  | updated
  | kept
  | skipped
deriving DecidableEq

/-- Engine state (`createInitialState` in the source). -/
structure EState where
  currentMonth : Option Nat
  peaks : List Peak
  currentHour : Option Nat
  currentHourSum : ℚ
  currentHourSamples : Nat
  lastOutputLimitA : Option ℚ
  previousMonthPeakAvgW : Option ℚ
  currentInterval : Option IntervalId
  currentIntervalSum : ℚ
  currentIntervalSamples : Nat
  currentMonthPeak : Option SinglePeak
  monthlyPeaks : List MonthPeak
  periodEnergyUsed : List ((ℚ × ℚ) × ℚ)
  balancingStartTime : Option ℚ
  isBalancing : Bool
deriving DecidableEq

/-- `createInitialState` from the source. -/
def createInitialState : EState where
  currentMonth := none
  peaks := []
  currentHour := none
  currentHourSum := 0
  currentHourSamples := 0
  lastOutputLimitA := none
  previousMonthPeakAvgW := none
  currentInterval := none
  currentIntervalSum := 0
  currentIntervalSamples := 0
  currentMonthPeak := none
  monthlyPeaks := []
  periodEnergyUsed := []
  balancingStartTime := none
  isBalancing := false

/-- JS `Math.round`: round half toward positive infinity. -/
def jsRound (x : ℚ) : ℤ := ⌊x + 1 / 2⌋

/-- `Math.round(x * 10) / 10`: round to 0.1 precision. -/
def roundTo1 (x : ℚ) : ℚ := (jsRound (x * 10) : ℚ) / 10

/-- `Math.round(x / 10) * 10`: round to the nearest 10. -/
def roundTo10 (x : ℚ) : ℚ := (jsRound (x / 10) : ℚ) * 10

/-- `isInPeakSeason(month, config)` (month is 1-12). -/
def isInPeakSeason (month : Nat) (config : Config) : Bool :=
  if ¬config.peakSeasonOnly then true
  else if config.peakSeasonStart ≤ config.peakSeasonEnd then
    decide (config.peakSeasonStart ≤ month ∧ month ≤ config.peakSeasonEnd)
  else
    decide (config.peakSeasonStart ≤ month ∨ month ≤ config.peakSeasonEnd)

/-- `isInPeakHours(hour, dayOfWeek, month, config)` (0=Sunday, 6=Saturday). -/
def isInPeakHours (hour dayOfWeek month : Nat) (config : Config) : Bool :=
  if ¬isInPeakSeason month config then false
  else if config.weekdaysOnly ∧ (dayOfWeek = 0 ∨ dayOfWeek = 6) then false
  else decide (config.peakHoursStart ≤ hour ∧ hour < config.peakHoursEnd)

/-- `isNightHours(hour)`: 22:00-06:00 with wrap-around. -/
def isNightHours (hour : Nat) : Bool :=
  decide (22 ≤ hour) || decide (hour < 6)

/-- `wattsToAmps(watts, config)`. -/
def wattsToAmps (watts : ℚ) (config : Config) : ℚ :=
  watts / (config.phases * config.gridVoltage)

/-- Descending order on peaks by effective value: entry `a` may precede
entry `b` (the comparator `(a, b) => b.effective - a.effective`). -/
def peakGe (a b : Peak) : Prop := b.effective ≤ a.effective

instance : DecidableRel peakGe :=
  fun a b => inferInstanceAs (Decidable (b.effective ≤ a.effective))

instance : IsTotal Peak peakGe := ⟨fun a b => le_total b.effective a.effective⟩

instance : IsTrans Peak peakGe := ⟨fun _ _ _ h1 h2 => le_trans h2 h1⟩

/-- `state.peaks.sort((a, b) => b.effective - a.effective)`: a stable sort
descending by effective value. -/
def sortPeaks (l : List Peak) : List Peak := List.insertionSort peakGe l

/-- The `findIndex`/replace-in-place step of `recordPeak` when
`onePeakPerDay` is set: replace the first entry with the given date if the
new effective value is strictly greater (`true` = replaced, `false` = kept);
`none` when no entry has that date. -/
def replaceSameDate (date : YMD) (e : Peak) : List Peak → Option (List Peak × Bool)
  | [] => none
  | p :: ps =>
    if p.date = date then
      if e.effective > p.effective then some (e :: ps, true) else some (p :: ps, false)
    else
      match replaceSameDate date e ps with
      | some (l, b) => some (p :: l, b)
      | none => none

/-- `recordPeak(state, config, date, hour, value, effective)`; returns the
new `state.peaks` together with `'added' | 'updated' | 'kept'`. -/
def recordPeak (peaks : List Peak) (config : Config) (date : YMD) (hour : Nat)
    (value effective : ℚ) : List Peak × PeakResult :=
  let e : Peak := ⟨date, hour, value, effective⟩
  let upd := if config.onePeakPerDay then replaceSameDate date e peaks else none
  match upd with
  | some (l, true) => (l, .updated)
  | some (_, false) => (peaks, .kept)
  | none =>
    let sorted := sortPeaks (peaks ++ [e])
    let trimmed :=
      if ¬config.onePeakPerDay ∧ sorted.length > config.peakCount * 3 then
        sorted.take (config.peakCount * 3)
      else sorted
    (trimmed, .added)

/-- `recordSinglePeak(state, intervalId, value, effective)`; returns the new
`state.currentMonthPeak` together with `'updated' | 'kept'`. -/
def recordSinglePeak (cur : Option SinglePeak) (intervalId : IntervalId)
    (value effective : ℚ) : Option SinglePeak × PeakResult :=
  let fresh : SinglePeak :=
    ⟨intervalId.date, (intervalId.hour, intervalId.minute), intervalId, value, effective⟩
  match cur with
  | none => (some fresh, .updated)
  | some sp =>
    if effective > sp.effective then (some fresh, .updated) else (some sp, .kept)

/-- `getTopPeaks(state, count)`: `state.peaks.slice(0, count)`. -/
def getTopPeaks (peaks : List Peak) (count : Nat) : List Peak := peaks.take count

/-- `calculateDynamicHeadroomW(config, batteryState)`. -/
def calculateDynamicHeadroomW (config : Config) (batteryState : Option BatteryState) : ℚ :=
  let fixedHeadroomW := config.headroomKw * 1000
  match batteryState with
  | none => fixedHeadroomW
  | some b =>
    if ¬config.dynamicHeadroom.enabled then fixedHeadroomW
    else
      match config.dynamicHeadroom.rules.find? (fun rule => decide (b.soc < rule.socLessThan)) with
      | some rule => rule.headroomKw * 1000
      | none => fixedHeadroomW

/-- JS truthiness test `x > 0` on a possibly-`null` number
(`null > 0` is `false` in JS). -/
def optPos (o : Option ℚ) : Bool :=
  match o with
  | some v => decide (0 < v)
  | none => false

/-- `calculatePeakAverage(state, peakCount)` (the `state.peaks` list is
passed explicitly). -/
def calculatePeakAverage (peaks : List Peak) (peakCount : Nat) : ℚ :=
  let topPeaks := getTopPeaks peaks peakCount
  if topPeaks.length = 0 then 0
  else
    let count := min topPeaks.length peakCount
    (topPeaks.foldl (fun sum p => sum + p.effective) 0) / (count : ℚ)

/-- The reason string of the limit calculation, as an enumeration (the
interpolated quantities are carried as arguments). -/
inductive LimitReason where
  | learning (recorded needed : Nat)
  | learningCarryover (recorded needed : Nat) (pct : ℚ)
  | minPeaksBelowMin
  | peakHeadroom (n : Nat)
  | learningNoPeaks
  | learningCarryoverSingle (pct : ℚ)
  | singlePeakActive
deriving DecidableEq

/-- Result record of `calculateTargetLimit`. -/
structure LimitInfo where
  targetLimitW : Option ℚ
  limitReason : LimitReason
  isLearning : Bool
  usingCarryover : Bool
deriving DecidableEq

/-- `calculateTargetLimit(state, config, batteryState)`.  The JS expression
`topPeaks[config.peakCount - 1].effective` is well-defined only when
`peakCount ≥ 1`; the `getD 0` default is never reached then, because the
branch requires `topPeaks.length ≥ peakCount`. -/
def calculateTargetLimit (state : EState) (config : Config)
    (batteryState : Option BatteryState) : LimitInfo :=
  let topPeaks := getTopPeaks state.peaks config.peakCount
  let minimumLimitW := config.minimumLimitKw * 1000
  let headroomW := calculateDynamicHeadroomW config batteryState
  if topPeaks.length < config.peakCount then
    if config.learningMode = LearningMode.carryover ∧ optPos state.previousMonthPeakAvgW then
      let carryoverPct := config.previousMonthCarryover / 100
      let carryoverLimitW := (state.previousMonthPeakAvgW.getD 0) * carryoverPct
      ⟨some (max (carryoverLimitW - headroomW) minimumLimitW),
        .learningCarryover topPeaks.length config.peakCount config.previousMonthCarryover,
        true, true⟩
    else
      ⟨none, .learning topPeaks.length config.peakCount, true, false⟩
  else
    let lowestTopPeak := ((topPeaks.get? (config.peakCount - 1)).map Peak.effective).getD 0
    let targetLimitW := max (lowestTopPeak - headroomW) minimumLimitW
    if targetLimitW = minimumLimitW then
      ⟨some targetLimitW, .minPeaksBelowMin, false, false⟩
    else
      ⟨some targetLimitW, .peakHeadroom config.peakCount, false, false⟩

/-- `calculateOutputLimitA(targetLimitW, config, isLearning, usingCarryover)`. -/
def calculateOutputLimitA (targetLimitW : Option ℚ) (config : Config)
    (isLearning : Bool) (usingCarryover : Bool) : ℚ :=
  let minimumLimitW := config.minimumLimitKw * 1000
  if isLearning ∧ ¬usingCarryover then
    min (wattsToAmps minimumLimitW config) config.maxBreakerCurrent
  else
    match targetLimitW with
    | none => config.maxBreakerCurrent
    | some w => roundTo1 (min (wattsToAmps w config) config.maxBreakerCurrent)

/-- The `findIndex`/assign step of `storeMonthlyPeak`: update the first
entry with the given month key. -/
def replaceFirstMonth (key : Nat × Nat) (peakW : ℚ) : List MonthPeak → List MonthPeak
  | [] => []
  | mp :: rest =>
    if mp.month = key then { mp with peakW := peakW } :: rest
    else mp :: replaceFirstMonth key peakW rest

/-- `storeMonthlyPeak(state, config, year, month)`.  The trim
`slice(-rollingMonths)` keeps the last `rollingMonths` entries, except that
in JS `slice(-0)` is `slice(0)` and keeps everything. -/
def storeMonthlyPeak (state : EState) (config : Config) (year month : Nat) : EState :=
  if ¬config.annualBillingEnabled then state
  else
    let peakW := (state.currentMonthPeak.map SinglePeak.effective).getD 0
    if peakW = 0 then state
    else
      let key := (year, month)
      let pushed :=
        if state.monthlyPeaks.any (fun mp => decide (mp.month = key)) then
          replaceFirstMonth key peakW state.monthlyPeaks
        else state.monthlyPeaks ++ [⟨key, peakW⟩]
      let trimmed :=
        if pushed.length > config.rollingMonths then
          if config.rollingMonths = 0 then pushed
          else pushed.drop (pushed.length - config.rollingMonths)
        else pushed
      { state with monthlyPeaks := trimmed }

/-- `calculateRollingAverage(state, config)` (same `slice(-n)` convention as
`storeMonthlyPeak`). -/
def calculateRollingAverage (state : EState) (config : Config) : ℚ :=
  if ¬config.annualBillingEnabled ∨ state.monthlyPeaks.length = 0 then 0
  else
    let months :=
      if config.rollingMonths = 0 then state.monthlyPeaks
      else state.monthlyPeaks.drop (state.monthlyPeaks.length - config.rollingMonths)
    (months.foldl (fun acc m => acc + m.peakW) 0) / (months.length : ℚ)

/-- A `Date` value, modelled by the calendar observations the code reads.
Seconds and milliseconds are taken as zero (readings arrive on whole
minutes); the system timezone is UTC, so `toISOString` agrees with the
calendar fields. -/
structure DT where
  year : Nat
  month0 : Nat
  day : Nat
  hour : Nat
  minute : Nat
  dayOfWeek : Nat
  epochMs : ℚ
deriving DecidableEq

/-- `now.toISOString().split('T')[0]`. -/
def DT.date (t : DT) : YMD := ⟨t.year, t.month0 + 1, t.day⟩

/-- Days in a calendar month (1-12), Gregorian. -/
def daysInMonth (year month : Nat) : Nat :=
  if month = 2 then
    if year % 4 = 0 ∧ (year % 100 ≠ 0 ∨ year % 400 = 0) then 29 else 28
  else if month = 4 ∨ month = 6 ∨ month = 9 ∨ month = 11 then 30
  else 31

/-- The calendar day before `d`. -/
def prevDay (d : YMD) : YMD :=
  if d.day > 1 then ⟨d.year, d.month, d.day - 1⟩
  else if d.month > 1 then ⟨d.year, d.month - 1, daysInMonth d.year (d.month - 1)⟩
  else ⟨d.year - 1, 12, 31⟩

/-- Date part of `new Date(now.getTime() - 3600000).toISOString()`. -/
def prevHourDate (t : DT) : YMD :=
  if t.hour = 0 then prevDay (DT.date t) else DT.date t

/-- `getIntervalId(now, intervalMinutes)`: floor the minute-of-hour to the
interval grid. -/
def getIntervalId (now : DT) (intervalMinutes : Nat) : IntervalId :=
  ⟨DT.date now, now.hour, now.minute / intervalMinutes * intervalMinutes⟩

/-- The month-reset flags collected into `result` by `processGridPower`. -/
structure MonthResetInfo where
  monthReset : Bool
  previousPeakCount : Option Nat
  previousMonthPeakW : Option ℚ
  previousMonthPeakAvgW : Option ℚ
deriving DecidableEq

/-- `result.hourCompleted`. -/
structure HourCompleted where
  hour : Nat
  avgW : ℚ
  effectiveW : ℚ
  wasNight : Bool
  result : PeakResult
deriving DecidableEq

/-- `result.intervalCompleted`. -/
structure IntervalCompleted where
  intervalId : IntervalId
  hour : Nat
  avgW : ℚ
  effectiveW : ℚ
  wasNight : Bool
  result : PeakResult
  peakUpdated : Bool
deriving DecidableEq

/-- `result.downtime`. -/
structure Downtime where
  fromHour : Nat
  toHour : Nat
  missedHours : ℤ
deriving DecidableEq

/-- The month-rollover block at the top of `processGridPower` (lines
547-586 of the source), including the first-run initialization of
`state.currentMonth`; `currentMonth` is the 0-11 value of `getMonth()`. -/
def monthResetStep (state : EState) (config : Config) (currentMonth year : Nat) :
    EState × MonthResetInfo :=
  match state.currentMonth with
  | none => ({ state with currentMonth := some currentMonth }, ⟨false, none, none, none⟩)
  | some m =>
    if m = currentMonth then (state, ⟨false, none, none, none⟩)
    else
      let prevMonth := if m = 0 then 12 else m
      let prevYear := if m = 0 then year - 1 else year
      let state1 :=
        if config.singlePeakMode ∧ config.annualBillingEnabled ∧ state.currentMonthPeak.isSome then
          storeMonthlyPeak state config prevYear prevMonth
        else state
      let previousMonthPeakW :=
        if config.singlePeakMode ∧ config.annualBillingEnabled ∧ state.currentMonthPeak.isSome then
          state.currentMonthPeak.map SinglePeak.effective
        else none
      let prevAvg : Option ℚ :=
        if state1.peaks.length > 0 then
          some (calculatePeakAverage state1.peaks config.peakCount)
        else
          match config.singlePeakMode, state1.currentMonthPeak with
          | true, some sp => some sp.effective
          | _, _ => none
      let state2 :=
        match prevAvg with
        | some a => { state1 with previousMonthPeakAvgW := some a }
        | none => state1
      ({ state2 with
          currentMonth := some currentMonth
          peaks := []
          currentHour := none
          currentHourSum := 0
          currentHourSamples := 0
          currentInterval := none
          currentIntervalSum := 0
          currentIntervalSamples := 0
          currentMonthPeak := none },
        ⟨true, some state.peaks.length, previousMonthPeakW, prevAvg⟩)

/-- The hourly-tracking block of `processGridPower` (60-minute mode):
downtime detection, completed-hour emission and accumulation. -/
def hourlyStep (state : EState) (config : Config) (now : DT) (power : ℚ) :
    EState × Option HourCompleted × Option Downtime :=
  let currentHour := now.hour
  let dayOfWeek := now.dayOfWeek
  let month := now.month0 + 1
  let dateStr := DT.date now
  let step :=
    match state.currentHour with
    | some h0 =>
      if h0 ≠ currentHour then
        let downtime :=
          if config.downtimeDetection.enabled ∧
              config.downtimeDetection.action ≠ DowntimeAction.ignore then
            let hourDiff : ℤ := ((currentHour : ℤ) - (h0 : ℤ) + 24) % 24
            if (config.downtimeDetection.triggerHours : ℤ) ≤ hourDiff then
              some (⟨h0, currentHour, hourDiff - 1⟩ : Downtime)
            else none
          else none
        if state.currentHourSamples ≠ 0 then
          let hourlyAvg := state.currentHourSum / (state.currentHourSamples : ℚ)
          let wasNight := isNightHours h0
          let effectiveValue :=
            if config.nightDiscount ∧ wasNight then hourlyAvg * (1 / 2) else hourlyAvg
          let completedHourDate :=
            if h0 > currentHour ∨ now.hour < h0 then prevHourDate now else dateStr
          let inPH := isInPeakHours h0 dayOfWeek month config
          let inPS := isInPeakSeason month config
          let rec1 :=
            if inPH ∧ inPS then
              if config.singlePeakMode then
                let r := recordSinglePeak state.currentMonthPeak
                  ⟨completedHourDate, h0, 0⟩ hourlyAvg effectiveValue
                ({ state with currentMonthPeak := r.1 }, r.2)
              else
                let r := recordPeak state.peaks config completedHourDate h0 hourlyAvg effectiveValue
                ({ state with peaks := r.1 }, r.2)
            else (state, PeakResult.skipped)
          (rec1.1, some (⟨h0, hourlyAvg, effectiveValue, wasNight, rec1.2⟩ : HourCompleted),
            downtime)
        else (state, none, downtime)
      else (state, none, none)
    | none => (state, none, none)
  let state1 := step.1
  let state2 :=
    if state1.currentHour ≠ some currentHour then
      { state1 with currentHour := some currentHour, currentHourSum := 0, currentHourSamples := 0 }
    else state1
  let state3 :=
    { state2 with currentHourSum := state2.currentHourSum + power,
                  currentHourSamples := state2.currentHourSamples + 1 }
  (state3, step.2.1, step.2.2)

/-- The interval-tracking block of `processGridPower` (15/30-minute mode). -/
def intervalStep (state : EState) (config : Config) (now : DT) (iidNow : IntervalId)
    (power : ℚ) : EState × Option IntervalCompleted :=
  let dayOfWeek := now.dayOfWeek
  let month := now.month0 + 1
  let step :=
    match state.currentInterval with
    | some iid0 =>
      if iid0 ≠ iidNow ∧ state.currentIntervalSamples ≠ 0 then
        let intervalAvg := state.currentIntervalSum / (state.currentIntervalSamples : ℚ)
        let completedHour := iid0.hour
        let wasNight := isNightHours completedHour
        let effectiveValue :=
          if config.nightDiscount ∧ wasNight then intervalAvg * (1 / 2) else intervalAvg
        let inPH := isInPeakHours completedHour dayOfWeek month config
        let inPS := isInPeakSeason month config
        let rec1 :=
          if inPH ∧ inPS then
            if config.singlePeakMode then
              let r := recordSinglePeak state.currentMonthPeak iid0 intervalAvg effectiveValue
              ({ state with currentMonthPeak := r.1 }, r.2)
            else
              let r := recordPeak state.peaks config iid0.date completedHour intervalAvg effectiveValue
              ({ state with peaks := r.1 }, r.2)
          else (state, PeakResult.skipped)
        (rec1.1, some (⟨iid0, completedHour, intervalAvg, effectiveValue, wasNight, rec1.2,
          decide (rec1.2 = PeakResult.updated)⟩ : IntervalCompleted))
      else (state, none)
    | none => (state, none)
  let state1 := step.1
  let state2 :=
    if state1.currentInterval ≠ some iidNow then
      { state1 with currentInterval := some iidNow, currentIntervalSum := 0,
                    currentIntervalSamples := 0 }
    else state1
  let state3 :=
    { state2 with currentIntervalSum := state2.currentIntervalSum + power,
                  currentIntervalSamples := state2.currentIntervalSamples + 1 }
  (state3, step.2)

/-- Dispatch between the interval-based and hourly tracking blocks
(`useIntervalTracking` in the source; an absent/zero interval length
defaults to 60). -/
def trackStep (state : EState) (config : Config) (now : DT) (power : ℚ) :
    EState × Option HourCompleted × Option IntervalCompleted × Option Downtime :=
  let intervalMinutes :=
    if config.measurementIntervalMinutes = 0 then 60 else config.measurementIntervalMinutes
  if intervalMinutes ≠ 60 then
    let r := intervalStep state config now (getIntervalId now intervalMinutes) power
    (r.1, none, r.2, none)
  else
    let r := hourlyStep state config now power
    (r.1, r.2.1, none, r.2.2)

/-- The limit-selection block of `processGridPower`: the inline single-peak
branch, or `calculateTargetLimit` in ranked mode. -/
def limitSelection (state : EState) (config : Config)
    (batteryState : Option BatteryState) : LimitInfo :=
  if config.singlePeakMode then
    let currentPeakW := (state.currentMonthPeak.map SinglePeak.effective).getD 0
    let minimumLimitW := config.minimumLimitKw * 1000
    let headroomW := calculateDynamicHeadroomW config batteryState
    if currentPeakW = 0 then
      if config.learningMode = LearningMode.carryover ∧ optPos state.previousMonthPeakAvgW then
        let carryoverPct := config.previousMonthCarryover / 100
        let carryoverLimitW := (state.previousMonthPeakAvgW.getD 0) * carryoverPct
        ⟨some (max (carryoverLimitW - headroomW) minimumLimitW),
          .learningCarryoverSingle config.previousMonthCarryover, true, true⟩
      else ⟨none, .learningNoPeaks, true, false⟩
    else ⟨some (max (currentPeakW - headroomW) minimumLimitW), .singlePeakActive, false, false⟩
  else calculateTargetLimit state config batteryState

/-- The result record of `processGridPower`.  `peakResultTop` is the
top-level `peakResult: null` placeholder, which the source never
reassigns; `currentMonthPeakOut`, `rollingAverageW` and
`monthlyPeaksCount` are `none` when the mode that adds them is off. -/
structure GridResult where
  monthReset : Bool
  previousPeakCount : Option Nat
  previousMonthPeakW : Option ℚ
  previousMonthPeakAvgW : Option ℚ
  peakResultTop : Option PeakResult
  intervalCompleted : Option IntervalCompleted
  hourCompleted : Option HourCompleted
  downtime : Option Downtime
  inPeakSeason : Bool
  inPeakHours : Bool
  isLearning : Bool
  usingCarryover : Bool
  currentHour : Nat
  currentHourAvgW : ℚ
  targetLimitW : Option ℚ
  limitReason : LimitReason
  outputLimitA : ℚ
  outputChanged : Bool
  peakAvgW : ℚ
  topPeaks : List Peak
  currentMonthPeakOut : Option (Option SinglePeak)
  singlePeakModeFlag : Bool
  rollingAverageW : Option ℚ
  monthlyPeaksCount : Option Nat
deriving DecidableEq

/-- The tail of `processGridPower`: current average, limit calculation,
output current and result assembly, operating on the already-updated
state. -/
def finishGridPower (state : EState) (config : Config) (now : DT)
    (batteryState : Option BatteryState) (mr : MonthResetInfo)
    (hc : Option HourCompleted) (ic : Option IntervalCompleted)
    (dtm : Option Downtime) : EState × GridResult :=
  let intervalMinutes :=
    if config.measurementIntervalMinutes = 0 then 60 else config.measurementIntervalMinutes
  let useIntervalTracking := intervalMinutes ≠ 60
  let currentAvgW :=
    if useIntervalTracking then
      if state.currentIntervalSamples > 0 then
        state.currentIntervalSum / (state.currentIntervalSamples : ℚ)
      else 0
    else
      if state.currentHourSamples > 0 then
        state.currentHourSum / (state.currentHourSamples : ℚ)
      else 0
  let li := limitSelection state config batteryState
  let peakAvgW :=
    if config.singlePeakMode then (state.currentMonthPeak.map SinglePeak.effective).getD 0
    else calculatePeakAverage state.peaks config.peakCount
  let inPS := isInPeakSeason (now.month0 + 1) config
  let inPH := isInPeakHours now.hour now.dayOfWeek (now.month0 + 1) config
  let rawOut :=
    if ¬inPS ∨ ¬inPH then config.maxBreakerCurrent
    else if li.isLearning then calculateOutputLimitA li.targetLimitW config true li.usingCarryover
    else calculateOutputLimitA li.targetLimitW config false false
  let outputLimitA := roundTo1 rawOut
  let outputChanged := decide (state.lastOutputLimitA ≠ some outputLimitA)
  (state,
    { monthReset := mr.monthReset
      previousPeakCount := mr.previousPeakCount
      previousMonthPeakW := mr.previousMonthPeakW
      previousMonthPeakAvgW := mr.previousMonthPeakAvgW
      peakResultTop := none
      intervalCompleted := ic
      hourCompleted := hc
      downtime := dtm
      inPeakSeason := inPS
      inPeakHours := inPH
      isLearning := li.isLearning
      usingCarryover := li.usingCarryover
      currentHour := now.hour
      currentHourAvgW := currentAvgW
      targetLimitW := li.targetLimitW
      limitReason := li.limitReason
      outputLimitA := outputLimitA
      outputChanged := outputChanged
      peakAvgW := peakAvgW
      topPeaks := if config.singlePeakMode then [] else getTopPeaks state.peaks config.peakCount
      currentMonthPeakOut :=
        if config.singlePeakMode then some state.currentMonthPeak else none
      singlePeakModeFlag := config.singlePeakMode
      rollingAverageW :=
        if config.annualBillingEnabled then some (calculateRollingAverage state config) else none
      monthlyPeaksCount :=
        if config.annualBillingEnabled then some state.monthlyPeaks.length else none })

/-- `processGridPower(state, config, gridPowerW, now, batteryState)`.
Negative samples are clamped to zero (`Math.max(0, gridPowerW || 0)`). -/
def processGridPower (state : EState) (config : Config) (gridPowerW : ℚ) (now : DT)
    (batteryState : Option BatteryState) : EState × GridResult :=
  let m := monthResetStep state config now.month0 now.year
  let power := max 0 gridPowerW
  let t := trackStep m.1 config now power
  finishGridPower t.1 config now batteryState m.2 t.2.1 t.2.2.1 t.2.2.2

/-- `calculateHoursUntilPeak(now, config)`.  The `date-fns` arithmetic is
modelled in minutes relative to the start of `now`'s day: `startOfDay`,
`addDays` and `set({hours: ...})` move only along that axis, date
comparison compares those minute offsets, and `differenceInMinutes` is
their exact difference (seconds are zero). -/
def calculateHoursUntilPeak (now : DT) (config : Config) : ℚ :=
  if ¬isInPeakSeason (now.month0 + 1) config then 24 * 7
  else
    let dayShift : Nat :=
      if config.weekdaysOnly then
        if now.dayOfWeek = 6 then 2
        else if now.dayOfWeek = 0 then 1
        else 0
      else 0
    let nowMin : ℤ := now.hour * 60 + now.minute
    let startMin : ℤ := dayShift * 1440 + config.peakHoursStart * 60
    let finalStartMin : ℤ :=
      if startMin < nowMin then
        let tomorrowShift := dayShift + 1
        let tomorrowDow := (now.dayOfWeek + tomorrowShift) % 7
        let tomorrowShift2 :=
          if config.weekdaysOnly ∧ (tomorrowDow = 0 ∨ tomorrowDow = 6) then
            tomorrowShift + (if tomorrowDow = 6 then 2 else 1)
          else tomorrowShift
        tomorrowShift2 * 1440 + config.peakHoursStart * 60
      else startMin
    let diffMinutes : ℤ := finalStartMin - nowMin
    max ((diffMinutes : ℚ) / 60) (1 / 2)

/-- Reason strings of `calculateChargeRate`, as an enumeration (interpolated
quantities carried as arguments). -/
inductive ChargeReason where
  | noBatteryData
  | peakHoursDischargeMode
  | balancingCharging (target : ℚ)
  | balancingHolding (target holdHours done : ℚ)
  | socSufficient
  | chargingBeforePeak (target : ℚ)
  | noChargingNeeded
deriving DecidableEq

/-- Result record of `calculateChargeRate`; fields absent from a given JS
return object are `none`. -/
structure ChargeResult where
  chargeRateW : ℚ
  charging : Bool
  reason : ChargeReason
  targetSoc : Option ℚ
  currentSoc : Option ℚ
  minSoc : Option ℚ
  hoursUntilPeak : Option ℚ
  energyDeficitWh : Option ℚ
  inPeakHoursFlag : Option Bool
  balancingActive : Bool
deriving DecidableEq

/-- `calculateChargeRate(state, config, batteryState, now)`.  A missing
battery object or non-numeric `soc` is the `none` case; `!state.balancingStartTime`
is true for both `null` and `0`. -/
def calculateChargeRate (state : EState) (config : Config)
    (batteryState : Option BatteryState) (now : DT) : EState × ChargeResult :=
  match batteryState with
  | none =>
    (state,
      { chargeRateW := 0, charging := false, reason := .noBatteryData,
        targetSoc := none, currentSoc := none, minSoc := none, hoursUntilPeak := none,
        energyDeficitWh := none, inPeakHoursFlag := none, balancingActive := false })
  | some b =>
    let soc := b.soc
    let minSoc := b.minSoc.getD 20
    let targetSocForPeakShaving := min (minSoc + config.socBuffer) 100
    let currentHour := now.hour
    let inPeakHours := isInPeakHours currentHour now.dayOfWeek (now.month0 + 1) config
    let inPeakSeason := isInPeakSeason (now.month0 + 1) config
    if inPeakHours ∧ inPeakSeason then
      ({ state with isBalancing := false, balancingStartTime := none },
        { chargeRateW := 0, charging := false, reason := .peakHoursDischargeMode,
          targetSoc := some targetSocForPeakShaving, currentSoc := some soc,
          minSoc := some minSoc, hoursUntilPeak := some 0, energyDeficitWh := none,
          inPeakHoursFlag := some true, balancingActive := false })
    else
      let bc := config.batteryBalancing
      let balanced : EState × Option ChargeResult :=
        if bc.enabled ∧ config.batteryEnabled then
          let isBalancingWindow := bc.startTime ≤ currentHour ∧ currentHour < bc.endTime
          let enoughSocToStartBalancing := bc.socThreshold ≤ soc
          if state.isBalancing ∨ (isBalancingWindow ∧ enoughSocToStartBalancing) then
            if soc < bc.targetSoc then
              ({ state with isBalancing := true, balancingStartTime := none },
                some
                  { chargeRateW := roundTo10 config.maxChargeRateW,
                    charging := decide (0 < config.maxChargeRateW),
                    reason := .balancingCharging bc.targetSoc,
                    targetSoc := some bc.targetSoc, currentSoc := some soc,
                    minSoc := some minSoc, hoursUntilPeak := none,
                    energyDeficitWh := none, inPeakHoursFlag := some false,
                    balancingActive := true })
            else
              let startTime :=
                if state.balancingStartTime.getD 0 = 0 then now.epochMs
                else state.balancingStartTime.getD 0
              let hoursHolding := (now.epochMs - startTime) / (1000 * 60 * 60)
              if hoursHolding < bc.holdHours then
                ({ state with isBalancing := true, balancingStartTime := some startTime },
                  some
                    { chargeRateW := 0, charging := false,
                      reason := .balancingHolding bc.targetSoc bc.holdHours hoursHolding,
                      targetSoc := some bc.targetSoc, currentSoc := some soc,
                      minSoc := some minSoc, hoursUntilPeak := none,
                      energyDeficitWh := none, inPeakHoursFlag := some false,
                      balancingActive := true })
              else
                ({ state with isBalancing := false, balancingStartTime := none }, none)
          else
            ({ state with isBalancing := false, balancingStartTime := none }, none)
        else (state, none)
      match balanced.2 with
      | some r => (balanced.1, r)
      | none =>
        let state2 := balanced.1
        if targetSocForPeakShaving ≤ soc then
          (state2,
            { chargeRateW := 0, charging := false, reason := .socSufficient,
              targetSoc := some targetSocForPeakShaving, currentSoc := some soc,
              minSoc := some minSoc, hoursUntilPeak := none, energyDeficitWh := none,
              inPeakHoursFlag := some false, balancingActive := false })
        else
          let hoursUntilPeak := calculateHoursUntilPeak now config
          let socDeficit := targetSocForPeakShaving - soc
          let energyDeficitWh := (socDeficit / 100) * config.batteryCapacityWh
          let chargeRateW := roundTo10 (min (energyDeficitWh / hoursUntilPeak) config.maxChargeRateW)
          (state2,
            { chargeRateW := chargeRateW, charging := decide (0 < chargeRateW),
              reason :=
                if 0 < chargeRateW then .chargingBeforePeak targetSocForPeakShaving
                else .noChargingNeeded,
              targetSoc := some targetSocForPeakShaving, currentSoc := some soc,
              minSoc := some minSoc, hoursUntilPeak := some (roundTo1 hoursUntilPeak),
              energyDeficitWh := some (jsRound energyDeficitWh : ℚ),
              inPeakHoursFlag := some false, balancingActive := false })

/-- `forecast.source`, as an enumeration of the source strings. -/
inductive ForecastSource where
  | noneSource
  | timeBased
  | historical
  | external
deriving DecidableEq

/-- One forecast period `{ start, end, expectedPeakW, weight, budgetWh }`
(`budgetWh` is added by `allocateBudget` and may be absent). -/
structure ForecastPeriod where
  startHour : ℚ
  endHour : ℚ
  expectedPeakW : ℚ
  weight : ℚ
  budgetWh : Option ℚ
deriving DecidableEq

/-- A forecast object; `periods` is `none` when the field is absent (an
empty array is present and truthy in JS). -/
structure Forecast where
  source : ForecastSource
  periods : Option (List ForecastPeriod)
deriving DecidableEq

/-- The configuration fields `calculateBudgetedDischarge` reads, each
possibly absent. -/
structure FConfig where
  minimumLimitKw : Option ℚ
  minimumLimit : Option ℚ
  maxDischargeRateW : Option ℚ
  maxChargeRateW : Option ℚ
deriving DecidableEq

/-- JS `a || d` on a possibly-absent number: `0` (falsy) also falls
through to the default. -/
def jsOr (v : Option ℚ) (d : ℚ) : ℚ :=
  match v with
  | some q => if q = 0 then d else q
  | none => d

/-- Reason strings of `calculateBudgetedDischarge`. -/
inductive DischargeReason where
  | noForecast
  | notInForecastPeriod
  | periodBudgetExhausted
  | batteryAtMinSoc
  | budgetBasedDischarge
  | noExcessPower
deriving DecidableEq

/-- Result record of `calculateBudgetedDischarge`.  The string key
`period_S_E` is modelled as the pair `(S, E)`; `periodInfo` carries the
`period` sub-object `(start, end, rounded budget, rounded used)`. -/
structure DischargeResult where
  dischargeW : ℚ
  reason : DischargeReason
  useBudget : Bool
  remainingBudgetWh : Option ℚ
  targetDischargeW : Option ℚ
  periodKey : Option (ℚ × ℚ)
  periodInfo : Option (ℚ × ℚ × ℚ × ℚ)
deriving DecidableEq

/-- `calculateBudgetedDischarge(config, state, forecast, currentHour,
consumptionW, currentSoc, minSoc, batteryCapacityWh)` from
`lib/forecasting.js`; of `state` only `state.periodEnergyUsed` is read,
passed here as an association list with absent keys reading as 0. -/
def calculateBudgetedDischarge (config : FConfig)
    (periodEnergyUsed : List ((ℚ × ℚ) × ℚ)) (forecast : Option Forecast)
    (currentHour consumptionW currentSoc minSoc batteryCapacityWh : ℚ) : DischargeResult :=
  let noForecastResult : DischargeResult :=
    { dischargeW := 0, reason := .noForecast, useBudget := false,
      remainingBudgetWh := none, targetDischargeW := none, periodKey := none,
      periodInfo := none }
  match forecast with
  | none => noForecastResult
  | some f =>
    if f.source = ForecastSource.noneSource then noForecastResult
    else
      match f.periods with
      | none => noForecastResult
      | some periods =>
        match periods.find? (fun p => decide (p.startHour ≤ currentHour ∧ currentHour < p.endHour)) with
        | none =>
          { dischargeW := 0, reason := .notInForecastPeriod, useBudget := true,
            remainingBudgetWh := some 0, targetDischargeW := none, periodKey := none,
            periodInfo := none }
        | some period =>
          let periodKey := (period.startHour, period.endHour)
          let usedWh := (periodEnergyUsed.lookup periodKey).getD 0
          let remainingBudgetWh := max 0 (period.budgetWh.getD 0 - usedWh)
          if remainingBudgetWh ≤ 0 then
            { dischargeW := 0, reason := .periodBudgetExhausted, useBudget := true,
              remainingBudgetWh := some 0, targetDischargeW := none,
              periodKey := some periodKey, periodInfo := none }
          else
            let availableEnergyWh := ((currentSoc - minSoc) / 100) * batteryCapacityWh
            if availableEnergyWh ≤ 0 then
              { dischargeW := 0, reason := .batteryAtMinSoc, useBudget := true,
                remainingBudgetWh := some remainingBudgetWh, targetDischargeW := none,
                periodKey := some periodKey, periodInfo := none }
            else
              let hoursRemaining := max (1 / 2) (period.endHour - currentHour)
              let targetDischargeW := remainingBudgetWh / hoursRemaining
              let minimumLimitW := (jsOr config.minimumLimitKw (jsOr config.minimumLimit 2)) * 1000
              let excessW := max 0 (consumptionW - minimumLimitW)
              let maxDischargeRateW := jsOr config.maxDischargeRateW (jsOr config.maxChargeRateW 5000)
              let maxFromBattery := min maxDischargeRateW (availableEnergyWh * 6)
              let dischargeW := min (min targetDischargeW excessW) maxFromBattery
              { dischargeW := (jsRound dischargeW : ℚ),
                reason := if 0 < dischargeW then .budgetBasedDischarge else .noExcessPower,
                useBudget := true,
                remainingBudgetWh := some (jsRound remainingBudgetWh : ℚ),
                targetDischargeW := some (jsRound targetDischargeW : ℚ),
                periodKey := some periodKey,
                periodInfo := some (period.startHour, period.endHour,
                  (jsRound (period.budgetWh.getD 0) : ℚ), (jsRound usedWh : ℚ)) }

/-! ## Helper lemmas -/

theorem foldl_add_effective (l : List Peak) (a : ℚ) :
    l.foldl (fun sum p => sum + p.effective) a = a + (l.map Peak.effective).sum := by
  induction l generalizing a with
  | nil => simp
  | cons p ps ih => simp [ih, add_assoc]

/-- Antitonicity of the first-match rule scan, given non-increasing
headroom values and a fixed fallback below all of them. -/
theorem headroom_find_le (fix : ℚ) {s1 s2 : ℚ} (hs : s1 ≤ s2) :
    ∀ rules : List HeadroomRule,
      List.Pairwise (fun r s => s.headroomKw ≤ r.headroomKw) rules →
      (∀ r ∈ rules, fix ≤ r.headroomKw) →
      (match rules.find? (fun rule => decide (s2 < rule.socLessThan)) with
        | some rule => rule.headroomKw * 1000
        | none => fix * 1000) ≤
      (match rules.find? (fun rule => decide (s1 < rule.socLessThan)) with
        | some rule => rule.headroomKw * 1000
        | none => fix * 1000) := by
  intro rules
  induction rules with
  | nil => intro _ _; simp
  | cons r rs ih =>
    intro hmono hfix
    have hall : ∀ x ∈ rs, x.headroomKw ≤ r.headroomKw := (List.pairwise_cons.mp hmono).1
    by_cases h1 : s1 < r.socLessThan
    · by_cases h2 : s2 < r.socLessThan
      · rw [List.find?_cons_of_pos _ (by simpa using h2),
          List.find?_cons_of_pos _ (by simpa using h1)]
      · rw [List.find?_cons_of_neg _ (by simpa using h2),
          List.find?_cons_of_pos _ (by simpa using h1)]
        cases hfind : rs.find? (fun rule => decide (s2 < rule.socLessThan)) with
        | none =>
          simp only [hfind]
          exact mul_le_mul_of_nonneg_right (hfix r (List.mem_cons_self r rs)) (by norm_num)
        | some r2 =>
          simp only [hfind]
          exact mul_le_mul_of_nonneg_right (hall r2 (List.mem_of_find?_eq_some hfind))
            (by norm_num)
    · have h2 : ¬s2 < r.socLessThan := fun hc => h1 (lt_of_le_of_lt hs hc)
      rw [List.find?_cons_of_neg _ (by simpa using h2),
        List.find?_cons_of_neg _ (by simpa using h1)]
      exact ih (List.pairwise_cons.mp hmono).2
        (fun x hx => hfix x (List.mem_cons_of_mem r hx))

/-! ## C1 -/

/-- Ranked-mode configuration with `onePeakPerDay` enabled, used to exhibit
the `recordPeak` ordering bug. -/
def c1Config : Config := { defaultConfig with onePeakPerDay := true }

/-- C1: the claimed invariant — the ranked peak list stays sorted
non-increasing by effective value after every `recordPeak` call — fails on
the code at the one-peak-per-day update path: starting from the empty list,
recording (Jan 15, eff 1000), (Jan 16, eff 500) and then (Jan 16, eff 2000)
replaces the Jan 16 entry in place without re-sorting, leaving the list
[1000, 2000], which is not non-increasing.  This evaluation pins the exact
run of the code at that failing input. -/
theorem C1_code_bug_eval :
    (recordPeak [] c1Config ⟨2024, 1, 15⟩ 10 1000 1000 =
      ([⟨⟨2024, 1, 15⟩, 10, 1000, 1000⟩], PeakResult.added)) ∧
    (recordPeak [⟨⟨2024, 1, 15⟩, 10, 1000, 1000⟩] c1Config ⟨2024, 1, 16⟩ 9 500 500 =
      ([⟨⟨2024, 1, 15⟩, 10, 1000, 1000⟩, ⟨⟨2024, 1, 16⟩, 9, 500, 500⟩], PeakResult.added)) ∧
    (recordPeak [⟨⟨2024, 1, 15⟩, 10, 1000, 1000⟩, ⟨⟨2024, 1, 16⟩, 9, 500, 500⟩] c1Config
        ⟨2024, 1, 16⟩ 14 2000 2000 =
      ([⟨⟨2024, 1, 15⟩, 10, 1000, 1000⟩, ⟨⟨2024, 1, 16⟩, 14, 2000, 2000⟩],
        PeakResult.updated)) ∧
    ¬List.Pairwise peakGe
      [⟨⟨2024, 1, 15⟩, 10, 1000, 1000⟩, ⟨⟨2024, 1, 16⟩, 14, 2000, 2000⟩] := by
  refine ⟨?_, ?_, ?_, ?_⟩
  · norm_num [recordPeak, replaceSameDate, sortPeaks, List.insertionSort, List.orderedInsert,
      c1Config, defaultConfig]
  · norm_num [recordPeak, replaceSameDate, sortPeaks, List.insertionSort, List.orderedInsert,
      peakGe, c1Config, defaultConfig]
  · norm_num [recordPeak, replaceSameDate, c1Config, defaultConfig]
  · norm_num [peakGe]

/-! ## C3 -/

/-- Dynamic-headroom configuration whose rule thresholds are sorted
ascending but whose headroom values increase: a counterexample to
monotonicity in SOC. -/
def c3Config : Config :=
  { defaultConfig with
      headroomKw := 3 / 10
      dynamicHeadroom := ⟨true, [⟨20, 1 / 2⟩, ⟨80, 1⟩]⟩ }

/-- C3 (counterexample): with the rule table `[{socLessThan 20, 0.5 kW},
{socLessThan 80, 1.0 kW}]` — sorted ascending by threshold as the claim
requires — the headroom at SOC 10 is 500 W and at SOC 50 is 1000 W, so
`calculateDynamicHeadroomW` is not non-increasing in SOC: the claim needs
the rule headroom values themselves to be non-increasing. -/
theorem C3_counterexample :
    List.Pairwise (fun r s => r.socLessThan ≤ s.socLessThan) c3Config.dynamicHeadroom.rules ∧
    (10 : ℚ) ≤ 50 ∧
    calculateDynamicHeadroomW c3Config (some ⟨10, none⟩) = 500 ∧
    calculateDynamicHeadroomW c3Config (some ⟨50, none⟩) = 1000 ∧
    ¬(calculateDynamicHeadroomW c3Config (some ⟨50, none⟩) ≤
        calculateDynamicHeadroomW c3Config (some ⟨10, none⟩)) := by
  refine ⟨?_, by norm_num, ?_, ?_, ?_⟩
  · norm_num [c3Config, defaultConfig]
  · norm_num [calculateDynamicHeadroomW, c3Config, defaultConfig, List.find?]
  · norm_num [calculateDynamicHeadroomW, c3Config, defaultConfig, List.find?]
  · norm_num [calculateDynamicHeadroomW, c3Config, defaultConfig, List.find?]

/-- C3 (amended): for a rule table sorted ascending by `socLessThan` whose
headroom values are non-increasing along the table, and whose fixed
fallback headroom is at most every rule headroom, `calculateDynamicHeadroomW`
is a non-increasing function of the SOC — including SOC values above the
largest threshold, where the fixed headroom is returned. -/
theorem C3_amended (config : Config) (b1 b2 : BatteryState)
    (hsorted : List.Pairwise (fun r s => r.socLessThan ≤ s.socLessThan)
      config.dynamicHeadroom.rules)
    (hmono : List.Pairwise (fun r s => s.headroomKw ≤ r.headroomKw)
      config.dynamicHeadroom.rules)
    (hfix : ∀ r ∈ config.dynamicHeadroom.rules, config.headroomKw ≤ r.headroomKw)
    (hsoc : b1.soc ≤ b2.soc) :
    calculateDynamicHeadroomW config (some b2) ≤ calculateDynamicHeadroomW config (some b1) := by
  unfold calculateDynamicHeadroomW
  by_cases he : config.dynamicHeadroom.enabled
  · simp only [he, not_true_eq_false, if_false]
    exact headroom_find_le config.headroomKw hsoc config.dynamicHeadroom.rules hmono hfix
  · simp [he]

/-- Configuration satisfying the amended C3 hypotheses (the default rule
table with a fixed fallback of 0.2 kW). -/
def c3wConfig : Config :=
  { defaultConfig with
      headroomKw := 1 / 5
      dynamicHeadroom := ⟨true, [⟨20, 1⟩, ⟨80, 1 / 2⟩, ⟨101, 1 / 5⟩]⟩ }

/-- Witness for C3 (amended) at SOC 30 ≤ SOC 90 on a concrete sorted,
non-increasing rule table. -/
theorem C3_amended_witness :
    List.Pairwise (fun r s => r.socLessThan ≤ s.socLessThan) c3wConfig.dynamicHeadroom.rules ∧
    List.Pairwise (fun r s => s.headroomKw ≤ r.headroomKw) c3wConfig.dynamicHeadroom.rules ∧
    (∀ r ∈ c3wConfig.dynamicHeadroom.rules, c3wConfig.headroomKw ≤ r.headroomKw) ∧
    (BatteryState.mk 30 none).soc ≤ (BatteryState.mk 90 none).soc ∧
    calculateDynamicHeadroomW c3wConfig (some ⟨90, none⟩) ≤
      calculateDynamicHeadroomW c3wConfig (some ⟨30, none⟩) := by
  refine ⟨?_, ?_, ?_, by norm_num, ?_⟩
  · norm_num [c3wConfig, defaultConfig]
  · norm_num [c3wConfig, defaultConfig]
  · norm_num [c3wConfig, defaultConfig]
  · exact C3_amended c3wConfig ⟨30, none⟩ ⟨90, none⟩
      (by norm_num [c3wConfig, defaultConfig])
      (by norm_num [c3wConfig, defaultConfig])
      (by norm_num [c3wConfig, defaultConfig])
      (by norm_num)

/-! ## C6 -/

/-- C6: with `onePeakPerDay` disabled, `recordPeak` reports `'added'`, and
the new peak list is the old list with the new entry appended, re-sorted
descending by effective value and trimmed to at most `3 × peakCount`
entries. -/
theorem C6_theorem (peaks : List Peak) (config : Config) (d : YMD) (hr : Nat)
    (v e : ℚ) (l : List Peak) (res : PeakResult)
    (hone : config.onePeakPerDay = false)
    (hrec : recordPeak peaks config d hr v e = (l, res)) :
    res = PeakResult.added ∧
    List.Pairwise peakGe l ∧
    l.length ≤ config.peakCount * 3 ∧
    ∃ s : List Peak, List.Perm s (peaks ++ [⟨d, hr, v, e⟩]) ∧ List.Pairwise peakGe s ∧
      l = s.take (config.peakCount * 3) := by
  unfold recordPeak at hrec
  rw [hone] at hrec
  simp only [if_false, Bool.false_eq_true, not_false_eq_true, true_and] at hrec
  set s := sortPeaks (peaks ++ [⟨d, hr, v, e⟩]) with hs
  have hl : l = s.take (config.peakCount * 3) ∧ res = PeakResult.added := by
    by_cases hlen : s.length > config.peakCount * 3
    · rw [if_pos hlen] at hrec
      injection hrec with hA hB
      exact ⟨hA.symm, hB.symm⟩
    · rw [if_neg hlen] at hrec
      injection hrec with hA hB
      exact ⟨hA.symm.trans (List.take_of_length_le (Nat.le_of_not_lt hlen)).symm, hB.symm⟩
  have hsorted : List.Pairwise peakGe s := List.sorted_insertionSort peakGe _
  have hperm : List.Perm s (peaks ++ [⟨d, hr, v, e⟩]) := List.perm_insertionSort peakGe _
  refine ⟨hl.2, ?_, ?_, s, hperm, hsorted, hl.1⟩
  · rw [hl.1]
    exact List.Pairwise.sublist (List.take_sublist _ _) hsorted
  · rw [hl.1, List.length_take]
    exact min_le_left _ _

/-- Ranked-mode configuration with `onePeakPerDay` disabled. -/
def c6Config : Config := { defaultConfig with onePeakPerDay := false }

/-- Witness for C6: adding one peak to the empty list. -/
theorem C6_witness :
    PeakResult.added = PeakResult.added ∧
    List.Pairwise peakGe [(⟨⟨2024, 1, 15⟩, 12, 4000, 4000⟩ : Peak)] ∧
    ([(⟨⟨2024, 1, 15⟩, 12, 4000, 4000⟩ : Peak)]).length ≤ c6Config.peakCount * 3 ∧
    ∃ s : List Peak, List.Perm s ([] ++ [⟨⟨2024, 1, 15⟩, 12, 4000, 4000⟩]) ∧
      List.Pairwise peakGe s ∧
      [(⟨⟨2024, 1, 15⟩, 12, 4000, 4000⟩ : Peak)] = s.take (c6Config.peakCount * 3) :=
  C6_theorem [] c6Config ⟨2024, 1, 15⟩ 12 4000 4000
    [⟨⟨2024, 1, 15⟩, 12, 4000, 4000⟩] PeakResult.added rfl rfl

/-! ## C9 -/

/-- C9: when the current hour falls in a forecast period whose allocated
budget minus the energy already spent there is ≤ 0,
`calculateBudgetedDischarge` returns zero discharge with reason
`'period budget exhausted'` (the total Lean translation also witnesses that
the function is defined — does not throw — on all inputs). -/
theorem C9_theorem (config : FConfig) (peu : List ((ℚ × ℚ) × ℚ)) (f : Forecast)
    (periods : List ForecastPeriod) (period : ForecastPeriod)
    (currentHour consumptionW currentSoc minSoc capacityWh : ℚ)
    (hsrc : f.source ≠ ForecastSource.noneSource)
    (hper : f.periods = some periods)
    (hfind : periods.find?
      (fun p => decide (p.startHour ≤ currentHour ∧ currentHour < p.endHour)) = some period)
    (hex : period.budgetWh.getD 0 -
      (peu.lookup (period.startHour, period.endHour)).getD 0 ≤ 0) :
    (calculateBudgetedDischarge config peu (some f) currentHour consumptionW currentSoc
      minSoc capacityWh).dischargeW = 0 ∧
    (calculateBudgetedDischarge config peu (some f) currentHour consumptionW currentSoc
      minSoc capacityWh).reason = DischargeReason.periodBudgetExhausted := by
  have hrem : max 0 (period.budgetWh.getD 0 -
      (peu.lookup (period.startHour, period.endHour)).getD 0) ≤ 0 :=
    le_of_eq (max_eq_left hex)
  unfold calculateBudgetedDischarge
  dsimp only
  rw [if_neg hsrc, hper]
  dsimp only
  rw [hfind]
  dsimp only
  rw [if_pos hrem]
  exact ⟨rfl, rfl⟩

/-- Witness for C9: hour 8 inside the period (7, 9) whose 100 Wh budget is
exceeded by 150 Wh already spent. -/
theorem C9_witness :
    (calculateBudgetedDischarge ⟨none, none, none, none⟩ [((7, 9), 150)]
      (some ⟨ForecastSource.timeBased, some [⟨7, 9, 1000, 1, some 100⟩]⟩)
      8 3000 50 20 10000).dischargeW = 0 ∧
    (calculateBudgetedDischarge ⟨none, none, none, none⟩ [((7, 9), 150)]
      (some ⟨ForecastSource.timeBased, some [⟨7, 9, 1000, 1, some 100⟩]⟩)
      8 3000 50 20 10000).reason = DischargeReason.periodBudgetExhausted :=
  C9_theorem ⟨none, none, none, none⟩ [((7, 9), 150)]
    ⟨ForecastSource.timeBased, some [⟨7, 9, 1000, 1, some 100⟩]⟩
    [⟨7, 9, 1000, 1, some 100⟩] ⟨7, 9, 1000, 1, some 100⟩
    8 3000 50 20 10000
    (by simp) rfl
    (by norm_num [List.find?])
    (by norm_num [List.lookup])

/-! ## C2 -/

/-- Configuration for the C2 scenario: peak window starting at 07:00, no
season restriction, battery of 10 kWh with a 3 kW maximum charge rate and a
20-point SOC buffer; balancing disabled. -/
def c2Config : Config :=
  { defaultConfig with
      peakSeasonOnly := false
      batteryEnabled := true
      socBuffer := 20
      batteryCapacityWh := 10000
      maxChargeRateW := 3000 }

/-- 2025-01-15 (a Wednesday) at 05:00 — exactly two hours before the peak
window opens at 07:00. -/
def c2Now : DT := ⟨2025, 0, 15, 5, 0, 3, 0⟩

/-- Battery at SOC 40 with `minSoc` 50. -/
def c2Battery : BatteryState := ⟨40, some 50⟩

/-- C2 (counterexample): in the claimed scenario (SOC 40, minSoc 50,
socBuffer 20, 10000 Wh, exactly 2 h until the peak window, max charge rate
3000 W ≥ the result) the code returns 1500 W, not the claimed 3000 W: the
target SOC is min(50+20, 100) = 70, the deficit is 30 % = 3000 Wh, and
3000 Wh spread over 2 h is 1500 W — consistent with the claim's own stated
formula, whose instantiation to 3000 was a slip. -/
theorem C2_counterexample :
    calculateHoursUntilPeak c2Now c2Config = 2 ∧
    (calculateChargeRate createInitialState c2Config (some c2Battery) c2Now).2.chargeRateW
      = 1500 ∧
    (calculateChargeRate createInitialState c2Config (some c2Battery) c2Now).2.chargeRateW
      ≠ 3000 := by
  have hH : calculateHoursUntilPeak c2Now c2Config = 2 := by
    norm_num [calculateHoursUntilPeak, isInPeakSeason, c2Config, defaultConfig, c2Now]
  have hfloor : (⌊(301 / 2 : ℚ)⌋ : ℤ) = 150 := Int.floor_eq_iff.mpr (by norm_num)
  have hr : (calculateChargeRate createInitialState c2Config (some c2Battery) c2Now).2.chargeRateW
      = 1500 := by
    unfold calculateChargeRate
    rw [hH]
    norm_num [isInPeakHours, isInPeakSeason, c2Config, defaultConfig,
      c2Now, c2Battery, createInitialState, roundTo10, jsRound, min_def, hfloor]
  exact ⟨hH, hr, by rw [hr]; norm_num⟩

/-- C2 (amended): in the stated scenario the returned `chargeRateW` is
1500 W (= deficit fraction 30 % × 10000 Wh ÷ 2 h, uncapped by the 3000 W
maximum, rounded to the nearest 10 W), with target SOC 70, a 3000 Wh
deficit and 2.0 reported hours until the peak window. -/
theorem C2_amended :
    (calculateChargeRate createInitialState c2Config (some c2Battery) c2Now).2.chargeRateW
      = 1500 ∧
    (calculateChargeRate createInitialState c2Config (some c2Battery) c2Now).2.targetSoc
      = some 70 ∧
    (calculateChargeRate createInitialState c2Config (some c2Battery) c2Now).2.energyDeficitWh
      = some 3000 ∧
    (calculateChargeRate createInitialState c2Config (some c2Battery) c2Now).2.hoursUntilPeak
      = some 2 ∧
    (1500 : ℚ) ≤ c2Config.maxChargeRateW := by
  have hH : calculateHoursUntilPeak c2Now c2Config = 2 := by
    norm_num [calculateHoursUntilPeak, isInPeakSeason, c2Config, defaultConfig, c2Now]
  have hfloor : (⌊(301 / 2 : ℚ)⌋ : ℤ) = 150 := Int.floor_eq_iff.mpr (by norm_num)
  have hfloor2 : (⌊(41 / 2 : ℚ)⌋ : ℤ) = 20 := Int.floor_eq_iff.mpr (by norm_num)
  have hfloor3 : (⌊(6001 / 2 : ℚ)⌋ : ℤ) = 3000 := Int.floor_eq_iff.mpr (by norm_num)
  refine ⟨?_, ?_, ?_, ?_, by norm_num [c2Config, defaultConfig]⟩ <;>
    (unfold calculateChargeRate
     rw [hH]
     norm_num [isInPeakHours, isInPeakSeason, c2Config, defaultConfig,
       c2Now, c2Battery, createInitialState, roundTo10, roundTo1, jsRound, min_def,
       hfloor, hfloor2, hfloor3])

/-! ## processGridPower helper lemmas -/

theorem processGridPower_eq (state : EState) (config : Config) (g : ℚ) (now : DT)
    (bs : Option BatteryState) :
    processGridPower state config g now bs =
      finishGridPower
        (trackStep (monthResetStep state config now.month0 now.year).1 config now (max 0 g)).1
        config now bs
        (monthResetStep state config now.month0 now.year).2
        (trackStep (monthResetStep state config now.month0 now.year).1 config now (max 0 g)).2.1
        (trackStep (monthResetStep state config now.month0 now.year).1 config now (max 0 g)).2.2.1
        (trackStep (monthResetStep state config now.month0 now.year).1 config now (max 0 g)).2.2.2 :=
  rfl

theorem finish_fst (st : EState) (cfg : Config) (now : DT) (bs : Option BatteryState)
    (mr : MonthResetInfo) (hc : Option HourCompleted) (ic : Option IntervalCompleted)
    (dtv : Option Downtime) :
    (finishGridPower st cfg now bs mr hc ic dtv).1 = st := rfl

theorem finish_monthReset (st : EState) (cfg : Config) (now : DT) (bs : Option BatteryState)
    (mr : MonthResetInfo) (hc : Option HourCompleted) (ic : Option IntervalCompleted)
    (dtv : Option Downtime) :
    (finishGridPower st cfg now bs mr hc ic dtv).2.monthReset = mr.monthReset := rfl

theorem finish_prevAvg (st : EState) (cfg : Config) (now : DT) (bs : Option BatteryState)
    (mr : MonthResetInfo) (hc : Option HourCompleted) (ic : Option IntervalCompleted)
    (dtv : Option Downtime) :
    (finishGridPower st cfg now bs mr hc ic dtv).2.previousMonthPeakAvgW =
      mr.previousMonthPeakAvgW := rfl

theorem finish_hourCompleted (st : EState) (cfg : Config) (now : DT)
    (bs : Option BatteryState) (mr : MonthResetInfo) (hc : Option HourCompleted)
    (ic : Option IntervalCompleted) (dtv : Option Downtime) :
    (finishGridPower st cfg now bs mr hc ic dtv).2.hourCompleted = hc := rfl

theorem finish_intervalCompleted (st : EState) (cfg : Config) (now : DT)
    (bs : Option BatteryState) (mr : MonthResetInfo) (hc : Option HourCompleted)
    (ic : Option IntervalCompleted) (dtv : Option Downtime) :
    (finishGridPower st cfg now bs mr hc ic dtv).2.intervalCompleted = ic := rfl

theorem finish_downtime (st : EState) (cfg : Config) (now : DT) (bs : Option BatteryState)
    (mr : MonthResetInfo) (hc : Option HourCompleted) (ic : Option IntervalCompleted)
    (dtv : Option Downtime) :
    (finishGridPower st cfg now bs mr hc ic dtv).2.downtime = dtv := rfl

theorem finish_inPeakSeason (st : EState) (cfg : Config) (now : DT)
    (bs : Option BatteryState) (mr : MonthResetInfo) (hc : Option HourCompleted)
    (ic : Option IntervalCompleted) (dtv : Option Downtime) :
    (finishGridPower st cfg now bs mr hc ic dtv).2.inPeakSeason =
      isInPeakSeason (now.month0 + 1) cfg := rfl

theorem finish_inPeakHours (st : EState) (cfg : Config) (now : DT)
    (bs : Option BatteryState) (mr : MonthResetInfo) (hc : Option HourCompleted)
    (ic : Option IntervalCompleted) (dtv : Option Downtime) :
    (finishGridPower st cfg now bs mr hc ic dtv).2.inPeakHours =
      isInPeakHours now.hour now.dayOfWeek (now.month0 + 1) cfg := rfl

theorem finish_outputLimitA (st : EState) (cfg : Config) (now : DT)
    (bs : Option BatteryState) (mr : MonthResetInfo) (hc : Option HourCompleted)
    (ic : Option IntervalCompleted) (dtv : Option Downtime) :
    (finishGridPower st cfg now bs mr hc ic dtv).2.outputLimitA =
      roundTo1
        (if ¬isInPeakSeason (now.month0 + 1) cfg ∨
            ¬isInPeakHours now.hour now.dayOfWeek (now.month0 + 1) cfg then
          cfg.maxBreakerCurrent
        else if (limitSelection st cfg bs).isLearning then
          calculateOutputLimitA (limitSelection st cfg bs).targetLimitW cfg true
            (limitSelection st cfg bs).usingCarryover
        else
          calculateOutputLimitA (limitSelection st cfg bs).targetLimitW cfg false false) := rfl

/-- A state whose stored month matches the new month is untouched by the
rollover block. -/
theorem monthResetStep_same (state : EState) (config : Config) (m year : Nat)
    (hM : state.currentMonth = some m) :
    monthResetStep state config m year = (state, ⟨false, none, none, none⟩) := by
  unfold monthResetStep
  rw [hM]
  simp

/-- In 60-minute mode the downtime output of `trackStep` is that of
`hourlyStep`. -/
theorem trackStep_downtime_60 (st : EState) (cfg : Config) (now : DT) (p : ℚ)
    (hmode : cfg.measurementIntervalMinutes = 60) :
    (trackStep st cfg now p).2.2.2 = (hourlyStep st cfg now p).2.2 := by
  unfold trackStep
  rw [hmode]
  norm_num

/-- The downtime record produced on an hour transition with detection
enabled and the wrap-aware gap at or above the trigger. -/
theorem hourlyStep_downtime (st : EState) (cfg : Config) (now : DT) (p : ℚ) (h0 : Nat)
    (hh : st.currentHour = some h0) (hne : h0 ≠ now.hour)
    (hen : cfg.downtimeDetection.enabled = true)
    (hact : cfg.downtimeDetection.action ≠ DowntimeAction.ignore)
    (htrig : (cfg.downtimeDetection.triggerHours : ℤ) ≤ ((now.hour : ℤ) - (h0 : ℤ) + 24) % 24) :
    (hourlyStep st cfg now p).2.2 =
      some ⟨h0, now.hour, ((now.hour : ℤ) - (h0 : ℤ) + 24) % 24 - 1⟩ := by
  unfold hourlyStep
  rw [hh]
  dsimp only
  rw [if_pos hne]
  have hc1 : cfg.downtimeDetection.enabled = true ∧
      cfg.downtimeDetection.action ≠ DowntimeAction.ignore := And.intro hen hact
  rw [if_pos hc1, if_pos htrig]
  split
  · dsimp only
  · dsimp only

/-! ## C10 -/

/-- C10: billing-period rollover is keyed solely on the month-of-year: when
the timestamp's `getMonth()` equals the stored marker — in particular for a
timestamp one or more whole years later — the rollover block leaves the
state (peak list, single-month peak, previous-month average) untouched,
`monthReset` is false and no previous-month average is reported. -/
theorem C10_theorem (state : EState) (config : Config) (g : ℚ) (now : DT)
    (bs : Option BatteryState) (hM : state.currentMonth = some now.month0) :
    monthResetStep state config now.month0 now.year = (state, ⟨false, none, none, none⟩) ∧
    (processGridPower state config g now bs).2.monthReset = false ∧
    (processGridPower state config g now bs).2.previousMonthPeakAvgW = none := by
  have h := monthResetStep_same state config now.month0 now.year hM
  refine ⟨h, ?_, ?_⟩
  · rw [processGridPower_eq, finish_monthReset, h]
  · rw [processGridPower_eq, finish_prevAvg, h]

/-- State stored in May of one year (month marker 4) with data present. -/
def c10State : EState :=
  { createInitialState with
      currentMonth := some 4
      peaks := [⟨⟨2025, 5, 10⟩, 12, 5000, 5000⟩]
      currentMonthPeak := some ⟨⟨2025, 5, 10⟩, (12, 0), ⟨⟨2025, 5, 10⟩, 12, 0⟩, 5000, 5000⟩
      previousMonthPeakAvgW := some 4200 }

/-- May 15 of the following year: same month-of-year, one whole year later. -/
def c10Now : DT := ⟨2026, 4, 15, 10, 0, 5, 0⟩

/-- Witness for C10: a timestamp exactly one year after the stored month
marker triggers no rollover. -/
theorem C10_witness :
    monthResetStep c10State defaultConfig c10Now.month0 c10Now.year =
      (c10State, ⟨false, none, none, none⟩) ∧
    (processGridPower c10State defaultConfig 3000 c10Now none).2.monthReset = false ∧
    (processGridPower c10State defaultConfig 3000 c10Now none).2.previousMonthPeakAvgW = none :=
  C10_theorem c10State defaultConfig 3000 c10Now none rfl

/-! ## C8 -/

/-- C8: in hourly mode with downtime detection enabled and action not
`'ignore'`, an hour transition whose wrap-aware gap
`(newHour − storedHour + 24) mod 24` reaches the trigger produces the
downtime record `{fromHour: storedHour, toHour: newHour, missedHours: gap − 1}`. -/
theorem C8_theorem (state : EState) (config : Config) (g : ℚ) (now : DT)
    (bs : Option BatteryState) (h0 : Nat)
    (hM : state.currentMonth = some now.month0)
    (hmode : config.measurementIntervalMinutes = 60)
    (hh : state.currentHour = some h0)
    (hne : h0 ≠ now.hour)
    (hen : config.downtimeDetection.enabled = true)
    (hact : config.downtimeDetection.action ≠ DowntimeAction.ignore)
    (htrig : (config.downtimeDetection.triggerHours : ℤ) ≤
      ((now.hour : ℤ) - (h0 : ℤ) + 24) % 24) :
    (processGridPower state config g now bs).2.downtime =
      some ⟨h0, now.hour, ((now.hour : ℤ) - (h0 : ℤ) + 24) % 24 - 1⟩ := by
  rw [processGridPower_eq, finish_downtime,
    monthResetStep_same state config now.month0 now.year hM]
  rw [show ((state, (⟨false, none, none, none⟩ : MonthResetInfo)).1) = state from rfl]
  rw [trackStep_downtime_60 state config now (max 0 g) hmode]
  exact hourlyStep_downtime state config now (max 0 g) h0 hh hne hen hact htrig

/-- State that last saw hour 10 of the current month. -/
def c8State : EState :=
  { createInitialState with currentMonth := some 0, currentHour := some 10 }

/-- January 20, 13:00 — three hours after the stored hour 10. -/
def c8Now : DT := ⟨2025, 0, 20, 13, 0, 1, 0⟩

/-- Witness for C8: stored hour 10, new hour 13, trigger 2 gives
`{fromHour: 10, toHour: 13, missedHours: 2}`. -/
theorem C8_witness :
    (processGridPower c8State defaultConfig 2000 c8Now none).2.downtime =
      some ⟨10, 13, 2⟩ := by
  have h := C8_theorem c8State defaultConfig 2000 c8Now none 10 rfl rfl rfl
    (by norm_num [c8Now]) rfl (by simp [defaultConfig]) (by norm_num [defaultConfig, c8Now])
  rw [h]
  norm_num [c8Now]

/-! ## C7 -/

/-- Any completed-hour record emitted by the hourly block carries the
night-discounted effective value. -/
theorem hourlyStep_effective (st : EState) (cfg : Config) (now : DT) (p : ℚ)
    (hcv : HourCompleted) (h : (hourlyStep st cfg now p).2.1 = some hcv) :
    hcv.effectiveW =
      if cfg.nightDiscount ∧ (22 ≤ hcv.hour ∨ hcv.hour < 6) then hcv.avgW * (1 / 2)
      else hcv.avgW := by
  unfold hourlyStep at h
  cases hh : st.currentHour with
  | none => rw [hh] at h; simp at h
  | some h0 =>
    rw [hh] at h
    dsimp only at h
    by_cases hne : h0 ≠ now.hour
    · rw [if_pos hne] at h
      by_cases hsamp : st.currentHourSamples ≠ 0
      · rw [if_pos hsamp] at h
        dsimp only at h
        rw [Option.some.injEq] at h
        subst h
        dsimp only
        simp [isNightHours]
      · rw [if_neg hsamp] at h
        simp at h
    · rw [if_neg hne] at h
      simp at h

/-- Any completed-interval record emitted by the interval block carries the
night-discounted effective value. -/
theorem intervalStep_effective (st : EState) (cfg : Config) (now : DT) (iid : IntervalId)
    (p : ℚ) (icv : IntervalCompleted) (h : (intervalStep st cfg now iid p).2 = some icv) :
    icv.effectiveW =
      if cfg.nightDiscount ∧ (22 ≤ icv.hour ∨ icv.hour < 6) then icv.avgW * (1 / 2)
      else icv.avgW := by
  unfold intervalStep at h
  cases hi : st.currentInterval with
  | none => rw [hi] at h; simp at h
  | some iid0 =>
    rw [hi] at h
    dsimp only at h
    by_cases hcond : iid0 ≠ iid ∧ st.currentIntervalSamples ≠ 0
    · rw [if_pos hcond] at h
      dsimp only at h
      rw [Option.some.injEq] at h
      subst h
      dsimp only
      simp [isNightHours]
    · rw [if_neg hcond] at h
      simp at h

/-- C7: every completed measurement period emitted by `processGridPower`
(hourly or interval mode) has `effectiveW = avgW × 0.5` when the night
discount is enabled and the period's hour h satisfies h ≥ 22 or h < 6, and
`effectiveW = avgW` otherwise. -/
theorem C7_theorem (state : EState) (config : Config) (g : ℚ) (now : DT)
    (bs : Option BatteryState) :
    (∀ hcv : HourCompleted,
      (processGridPower state config g now bs).2.hourCompleted = some hcv →
      hcv.effectiveW =
        if config.nightDiscount ∧ (22 ≤ hcv.hour ∨ hcv.hour < 6) then hcv.avgW * (1 / 2)
        else hcv.avgW) ∧
    (∀ icv : IntervalCompleted,
      (processGridPower state config g now bs).2.intervalCompleted = some icv →
      icv.effectiveW =
        if config.nightDiscount ∧ (22 ≤ icv.hour ∨ icv.hour < 6) then icv.avgW * (1 / 2)
        else icv.avgW) := by
  constructor
  · intro hcv h
    rw [processGridPower_eq, finish_hourCompleted] at h
    unfold trackStep at h
    dsimp only at h
    split at h
    · norm_num at h
      exact hourlyStep_effective _ config now _ hcv h
    · split at h
      · simp at h
      · try dsimp only at h
        exact hourlyStep_effective _ config now _ hcv h
  · intro icv h
    rw [processGridPower_eq, finish_intervalCompleted] at h
    unfold trackStep at h
    dsimp only at h
    split at h
    · norm_num at h
      exact absurd h (by simp)
    · split at h
      · try dsimp only at h
        exact intervalStep_effective _ config now _ _ icv h
      · simp at h

/-- Hourly-mode configuration with the night discount enabled. -/
def c7Config : Config := { defaultConfig with nightDiscount := true }

/-- State mid-way through hour 23 with one 4000 W sample accumulated. -/
def c7State : EState :=
  { createInitialState with
      currentMonth := some 0
      currentHour := some 23
      currentHourSum := 4000
      currentHourSamples := 1 }

/-- Midnight of January 16: the hour rolls over from 23 to 0. -/
def c7Now : DT := ⟨2025, 0, 16, 0, 0, 4, 0⟩

/-- The completed-hour record the rollover emits: hour 23 averaged 4000 W,
night-discounted to 2000 W. -/
def c7HC : HourCompleted := ⟨23, 4000, 2000, true, PeakResult.skipped⟩

/-- Witness for C7: a completed night hour (23:00) with the discount on
emits half its average as the effective value. -/
theorem C7_witness :
    (processGridPower c7State c7Config 1000 c7Now none).2.hourCompleted = some c7HC ∧
    c7HC.effectiveW =
      (if c7Config.nightDiscount ∧ (22 ≤ c7HC.hour ∨ c7HC.hour < 6) then c7HC.avgW * (1 / 2)
      else c7HC.avgW) := by
  have heval : (processGridPower c7State c7Config 1000 c7Now none).2.hourCompleted
      = some c7HC := by
    rw [processGridPower_eq, finish_hourCompleted,
      monthResetStep_same c7State c7Config c7Now.month0 c7Now.year rfl]
    norm_num [trackStep, hourlyStep, isNightHours, isInPeakHours, isInPeakSeason,
      c7State, c7Config, c7Now, c7HC, defaultConfig, createInitialState, prevHourDate,
      prevDay, daysInMonth]
  exact ⟨heval, (C7_theorem c7State c7Config 1000 c7Now none).1 c7HC heval⟩

/-! ## C5 -/

/-- `calculatePeakAverage` is the sum of the effective values of the first
`min k n` entries divided by their number (with the empty-average and the
`n = 0` corner both yielding 0, matching `0 / 0 = 0` on `ℚ`). -/
theorem calculatePeakAverage_eq (peaks : List Peak) (n : Nat) (h : peaks ≠ []) :
    calculatePeakAverage peaks n =
      ((peaks.take n).map Peak.effective).sum / (min peaks.length n : ℚ) := by
  unfold calculatePeakAverage getTopPeaks
  rcases Nat.eq_zero_or_pos n with hn | hn
  · subst hn
    simp
  · have hlen : (peaks.take n).length = min n peaks.length := List.length_take n peaks
    have hpos : 0 < peaks.length := List.length_pos.mpr h
    have hne2 : ¬(peaks.take n).length = 0 := by
      rw [hlen]; omega
    rw [if_neg hne2]
    rw [foldl_add_effective, zero_add, hlen]
    have hmin : min (min n peaks.length) n = min peaks.length n := by omega
    rw [hmin]
    simp [Nat.cast_min]

/-- The rollover block in ranked mode with a nonempty peak list: snapshot
the peak average into the carryover slot, report it, and clear the
accumulators and the peak list. -/
theorem monthResetStep_ranked (state : EState) (config : Config) (cm year m : Nat)
    (hmode : config.singlePeakMode = false) (hM : state.currentMonth = some m)
    (hne : m ≠ cm) (hk : state.peaks ≠ []) :
    monthResetStep state config cm year =
      ({ state with
          previousMonthPeakAvgW := some (calculatePeakAverage state.peaks config.peakCount)
          currentMonth := some cm
          peaks := []
          currentHour := none
          currentHourSum := 0
          currentHourSamples := 0
          currentInterval := none
          currentIntervalSum := 0
          currentIntervalSamples := 0
          currentMonthPeak := none },
        ⟨true, some state.peaks.length, none,
          some (calculatePeakAverage state.peaks config.peakCount)⟩) := by
  have hpos : state.peaks.length > 0 := List.length_pos.mpr hk
  unfold monthResetStep
  rw [hM]
  dsimp only
  rw [if_neg hne]
  simp only [hmode, Bool.false_eq_true, false_and, if_false]
  rw [if_pos hpos]

/-- A state whose hour and interval accumulators were just reset records no
completed period, so `trackStep` leaves `peaks` and the carryover slot
untouched. -/
theorem hourlyStep_fresh (st : EState) (cfg : Config) (now : DT) (p : ℚ)
    (hh : st.currentHour = none) :
    ((hourlyStep st cfg now p).1).peaks = st.peaks ∧
    ((hourlyStep st cfg now p).1).previousMonthPeakAvgW = st.previousMonthPeakAvgW := by
  constructor <;> simp [hourlyStep, hh]

theorem intervalStep_fresh (st : EState) (cfg : Config) (now : DT) (iid : IntervalId)
    (p : ℚ) (hi : st.currentInterval = none) :
    ((intervalStep st cfg now iid p).1).peaks = st.peaks ∧
    ((intervalStep st cfg now iid p).1).previousMonthPeakAvgW = st.previousMonthPeakAvgW := by
  constructor <;> simp [intervalStep, hi]

theorem trackStep_fresh (st : EState) (cfg : Config) (now : DT) (p : ℚ)
    (hh : st.currentHour = none) (hi : st.currentInterval = none) :
    ((trackStep st cfg now p).1).peaks = st.peaks ∧
    ((trackStep st cfg now p).1).previousMonthPeakAvgW = st.previousMonthPeakAvgW := by
  unfold trackStep
  dsimp only
  split
  · exact hourlyStep_fresh st cfg now p hh
  · split
    · exact intervalStep_fresh st cfg now _ p hi
    · exact hourlyStep_fresh st cfg now p hh

/-- C5: in ranked mode, a call whose timestamp's month-of-year differs from
the stored marker reports `monthReset`, snapshots the mean effective value
of the top `min k peakCount` ranked peaks into `previousMonthPeakAvgW`, and
leaves the peak list empty at the end of the call. -/
theorem C5_theorem (state : EState) (config : Config) (g : ℚ) (now : DT)
    (bs : Option BatteryState) (m : Nat)
    (hmode : config.singlePeakMode = false)
    (hM : state.currentMonth = some m)
    (hne : m ≠ now.month0)
    (hk : state.peaks ≠ [])
    (hsorted : List.Pairwise peakGe state.peaks) :
    (processGridPower state config g now bs).2.monthReset = true ∧
    (processGridPower state config g now bs).2.previousMonthPeakAvgW =
      some (((state.peaks.take config.peakCount).map Peak.effective).sum /
        (min state.peaks.length config.peakCount : ℚ)) ∧
    ((processGridPower state config g now bs).1).peaks = [] := by
  have hres := monthResetStep_ranked state config now.month0 now.year m hmode hM hne hk
  have havg := calculatePeakAverage_eq state.peaks config.peakCount hk
  refine ⟨?_, ?_, ?_⟩
  · rw [processGridPower_eq, finish_monthReset, hres]
  · rw [processGridPower_eq, finish_prevAvg, hres]
    dsimp only
    rw [havg]
  · rw [processGridPower_eq, finish_fst, hres]
    dsimp only
    rw [(trackStep_fresh _ config now (max 0 g) rfl rfl).1]

/-- Ranked-mode state holding two January peaks (5000 W and 3000 W,
sorted descending), month marker January. -/
def c5State : EState :=
  { createInitialState with
      currentMonth := some 0
      peaks := [⟨⟨2025, 1, 10⟩, 12, 5000, 5000⟩, ⟨⟨2025, 1, 11⟩, 9, 3000, 3000⟩] }

/-- February 1, 08:00 — first reading of the next billing month. -/
def c5Now : DT := ⟨2025, 1, 1, 8, 0, 6, 0⟩

/-- Witness for C5: two peaks averaging 4000 W are snapshotted and cleared
on the February rollover. -/
theorem C5_witness :
    (processGridPower c5State defaultConfig 2500 c5Now none).2.monthReset = true ∧
    (processGridPower c5State defaultConfig 2500 c5Now none).2.previousMonthPeakAvgW =
      some (((c5State.peaks.take defaultConfig.peakCount).map Peak.effective).sum /
        (min c5State.peaks.length defaultConfig.peakCount : ℚ)) ∧
    ((processGridPower c5State defaultConfig 2500 c5Now none).1).peaks = [] :=
  C5_theorem c5State defaultConfig 2500 c5Now none 0 rfl rfl (by decide)
    (by simp [c5State, createInitialState])
    (by norm_num [c5State, createInitialState, peakGe, List.pairwise_cons])

/-! ## C4 -/

theorem floor_half_add_int (n : ℤ) : ⌊(n : ℚ) + 1 / 2⌋ = n := by
  rw [Int.floor_int_add]
  have h : ⌊(1 / 2 : ℚ)⌋ = 0 := Int.floor_eq_iff.mpr (by norm_num)
  rw [h, add_zero]

theorem roundTo1_nonneg {x : ℚ} (hx : 0 ≤ x) : 0 ≤ roundTo1 x := by
  unfold roundTo1 jsRound
  apply div_nonneg _ (by norm_num : (0 : ℚ) ≤ 10)
  have h0 : (0 : ℤ) ≤ ⌊x * 10 + 1 / 2⌋ := by
    apply Int.le_floor.mpr
    push_cast
    have := mul_nonneg hx (by norm_num : (0 : ℚ) ≤ 10)
    linarith
  exact_mod_cast h0

theorem roundTo1_le {x b : ℚ} (n : ℤ) (hb : b = n / 10) (hxb : x ≤ b) : roundTo1 x ≤ b := by
  unfold roundTo1 jsRound
  have h1 : x * 10 ≤ (n : ℚ) / 10 * 10 :=
    mul_le_mul_of_nonneg_right (hb ▸ hxb) (by norm_num)
  have h2 : (n : ℚ) / 10 * 10 = n := div_mul_cancel₀ _ (by norm_num)
  have hxn : x * 10 ≤ (n : ℚ) := h2 ▸ h1
  have hfl : ⌊x * 10 + 1 / 2⌋ ≤ n := by
    have hmono := Int.floor_mono (show x * 10 + 1 / 2 ≤ (n : ℚ) + 1 / 2 by linarith)
    rwa [floor_half_add_int] at hmono
  have hc : ((⌊x * 10 + 1 / 2⌋ : ℤ) : ℚ) ≤ (n : ℚ) := by exact_mod_cast hfl
  rw [hb]
  linarith

theorem roundTo1_fixed {b : ℚ} (n : ℤ) (hb : b = n / 10) : roundTo1 b = b := by
  unfold roundTo1 jsRound
  rw [hb, div_mul_cancel₀ _ (by norm_num : (10 : ℚ) ≠ 0), floor_half_add_int]

/-- `calculateOutputLimitA` stays within `[0, maxBreakerCurrent]` for a
valid electrical configuration, a nonnegative minimum floor and a breaker
cap that is a whole multiple of 0.1 A, whenever the target (if any) is
nonnegative. -/
theorem calculateOutputLimitA_bounds (t : Option ℚ) (config : Config) (l u : Bool)
    (hph : 0 < config.phases) (hv : 0 < config.gridVoltage)
    (hmin : 0 ≤ config.minimumLimitKw) (hbr : 0 ≤ config.maxBreakerCurrent)
    (n : ℤ) (hb : config.maxBreakerCurrent = n / 10)
    (ht : ∀ w, t = some w → 0 ≤ w) :
    0 ≤ calculateOutputLimitA t config l u ∧
      calculateOutputLimitA t config l u ≤ config.maxBreakerCurrent := by
  have hpv : 0 < config.phases * config.gridVoltage := mul_pos hph hv
  have hminW : (0 : ℚ) ≤ config.minimumLimitKw * 1000 := mul_nonneg hmin (by norm_num)
  unfold calculateOutputLimitA wattsToAmps
  split
  · exact ⟨le_min (div_nonneg hminW hpv.le) hbr, min_le_right _ _⟩
  · cases t with
    | none => exact ⟨hbr, le_refl _⟩
    | some w =>
      have hw : 0 ≤ w := ht w rfl
      have h0 : 0 ≤ min (w / (config.phases * config.gridVoltage)) config.maxBreakerCurrent :=
        le_min (div_nonneg hw hpv.le) hbr
      have h1 : min (w / (config.phases * config.gridVoltage)) config.maxBreakerCurrent ≤
          config.maxBreakerCurrent := min_le_right _ _
      exact ⟨roundTo1_nonneg h0, roundTo1_le n hb h1⟩

/-- Every numeric target produced by the limit-selection block is at least
the minimum floor, hence nonnegative. -/
theorem limitSelection_target_nonneg (st : EState) (config : Config)
    (bs : Option BatteryState) (hmin : 0 ≤ config.minimumLimitKw) :
    ∀ w, (limitSelection st config bs).targetLimitW = some w → 0 ≤ w := by
  have hminW : (0 : ℚ) ≤ config.minimumLimitKw * 1000 := mul_nonneg hmin (by norm_num)
  intro w hw
  unfold limitSelection calculateTargetLimit at hw
  dsimp only at hw
  split at hw
  all_goals try split at hw
  all_goals try split at hw
  all_goals
    first
    | (rw [Option.some.injEq] at hw
       subst hw
       exact le_trans hminW (le_max_right _ _))
    | simp at hw

/-- C4 (amended): for every configuration with positive `phases` and
`gridVoltage`, nonnegative `minimumLimitKw`, and a nonnegative
`maxBreakerCurrent` that is a whole multiple of 0.1 A, every state, sample
and timestamp yield `0 ≤ outputLimitA ≤ maxBreakerCurrent`, and outside
peak season or peak hours `outputLimitA` equals `maxBreakerCurrent`
exactly.  (Without the 0.1-multiple condition the final rounding can land
above — and off-peak, away from — a fractional breaker cap.) -/
theorem C4_amended (state : EState) (config : Config) (g : ℚ) (now : DT)
    (bs : Option BatteryState)
    (hph : 0 < config.phases) (hv : 0 < config.gridVoltage)
    (hmin : 0 ≤ config.minimumLimitKw) (hbr : 0 ≤ config.maxBreakerCurrent)
    (n : ℤ) (hb : config.maxBreakerCurrent = n / 10) :
    0 ≤ (processGridPower state config g now bs).2.outputLimitA ∧
    (processGridPower state config g now bs).2.outputLimitA ≤ config.maxBreakerCurrent ∧
    (((processGridPower state config g now bs).2.inPeakSeason = false ∨
        (processGridPower state config g now bs).2.inPeakHours = false) →
      (processGridPower state config g now bs).2.outputLimitA = config.maxBreakerCurrent) := by
  rw [processGridPower_eq, finish_outputLimitA, finish_inPeakSeason, finish_inPeakHours]
  set st1 := (trackStep (monthResetStep state config now.month0 now.year).1 config now
    (max 0 g)).1 with hst1
  by_cases hoff : (¬(isInPeakSeason (now.month0 + 1) config = true) ∨
      ¬(isInPeakHours now.hour now.dayOfWeek (now.month0 + 1) config = true))
  · rw [if_pos hoff]
    have hfix := roundTo1_fixed n hb
    exact ⟨by rw [hfix]; exact hbr, le_of_eq hfix, fun _ => hfix⟩
  · rw [if_neg hoff]
    push_neg at hoff
    obtain ⟨hps1, hph1⟩ := hoff
    have hbnd : ∀ lb ub : Bool,
        0 ≤ roundTo1 (calculateOutputLimitA (limitSelection st1 config bs).targetLimitW
          config lb ub) ∧
        roundTo1 (calculateOutputLimitA (limitSelection st1 config bs).targetLimitW
          config lb ub) ≤ config.maxBreakerCurrent := by
      intro lb ub
      have h := calculateOutputLimitA_bounds (limitSelection st1 config bs).targetLimitW
        config lb ub hph hv hmin hbr n hb (limitSelection_target_nonneg st1 config bs hmin)
      exact ⟨roundTo1_nonneg h.1, roundTo1_le n hb h.2⟩
    refine ⟨?_, ?_, ?_⟩
    · split
      · exact (hbnd true (limitSelection st1 config bs).usingCarryover).1
      · exact (hbnd false false).1
    · split
      · exact (hbnd true (limitSelection st1 config bs).usingCarryover).2
      · exact (hbnd false false).2
    · intro hcase
      exfalso
      rcases hcase with hc | hc
      · exact Bool.noConfusion (hps1.symm.trans hc)
      · exact Bool.noConfusion (hph1.symm.trans hc)

/-- An arbitrary in-season timestamp for the C4 witness. -/
def c4wNow : DT := ⟨2025, 0, 15, 12, 0, 3, 0⟩

/-- Witness for C4 (amended) on the default configuration (breaker 25 A =
250 × 0.1 A). -/
theorem C4_amended_witness :
    0 ≤ (processGridPower createInitialState defaultConfig 3000 c4wNow none).2.outputLimitA ∧
    (processGridPower createInitialState defaultConfig 3000 c4wNow none).2.outputLimitA ≤
      defaultConfig.maxBreakerCurrent ∧
    (((processGridPower createInitialState defaultConfig 3000 c4wNow none).2.inPeakSeason = false ∨
        (processGridPower createInitialState defaultConfig 3000 c4wNow none).2.inPeakHours = false) →
      (processGridPower createInitialState defaultConfig 3000 c4wNow none).2.outputLimitA =
        defaultConfig.maxBreakerCurrent) :=
  C4_amended createInitialState defaultConfig 3000 c4wNow none
    (by norm_num [defaultConfig]) (by norm_num [defaultConfig])
    (by norm_num [defaultConfig]) (by norm_num [defaultConfig])
    250 (by norm_num [defaultConfig])

/-- A breaker cap of 25.06 A — not a multiple of 0.1 A. -/
def c4Config : Config := { defaultConfig with maxBreakerCurrent := 2506 / 100 }

/-- 23:00 on January 15 — inside peak season, outside peak hours. -/
def c4Now : DT := ⟨2025, 0, 15, 23, 0, 3, 0⟩

/-- C4 (counterexample): with a breaker cap of 25.06 A, an off-peak call
returns `outputLimitA = 25.1` — the unconditional final rounding to 0.1 A
pushes the output above the cap and away from the claimed exact equality
with `maxBreakerCurrent`. -/
theorem C4_counterexample :
    (processGridPower createInitialState c4Config 0 c4Now none).2.inPeakHours = false ∧
    (processGridPower createInitialState c4Config 0 c4Now none).2.outputLimitA = 251 / 10 ∧
    ¬((processGridPower createInitialState c4Config 0 c4Now none).2.outputLimitA ≤
        c4Config.maxBreakerCurrent) ∧
    (processGridPower createInitialState c4Config 0 c4Now none).2.outputLimitA ≠
      c4Config.maxBreakerCurrent := by
  have hPH : isInPeakHours c4Now.hour c4Now.dayOfWeek (c4Now.month0 + 1) c4Config = false := by
    norm_num [isInPeakHours, isInPeakSeason, c4Config, c4Now, defaultConfig]
  have hf : (⌊(2511 / 10 : ℚ)⌋ : ℤ) = 251 := Int.floor_eq_iff.mpr (by norm_num)
  have hout : (processGridPower createInitialState c4Config 0 c4Now none).2.outputLimitA
      = 251 / 10 := by
    rw [processGridPower_eq, finish_outputLimitA]
    rw [if_pos (Or.inr (by simp [hPH]))]
    norm_num [roundTo1, jsRound, c4Config, defaultConfig, hf]
  refine ⟨?_, hout, ?_, ?_⟩
  · rw [processGridPower_eq, finish_inPeakHours]
    exact hPH
  · rw [hout]
    norm_num [c4Config, defaultConfig]
  · rw [hout]
    norm_num [c4Config, defaultConfig]

end Effekttariff
